import Mathlib

/-!
Verification of the `earthdatahub-notebooks` repository against its
natural-language specification.

The repository consists of Jupyter notebooks (linear sequences of calls
into the xarray/Dask/zarr stack and an external `display` plotting
helper) plus a static catalog file `index.json`.  We embed each notebook
as a list of code cells; each cell carries the statements it executes
(transcribed from the notebook source, with call chains flattened into
consecutive statements on the same variable) together with counts of the
control-flow constructs authored in the cell.  The catalog is embedded
as the literal list of its entries' key/value pairs.
-/

namespace EDH

/-! ### String helpers (kernel-evaluable, via the character list) -/

/-- `startsWithCL p s`: the character list `p` is a prefix of `s`. -/
def startsWithCL : List Char → List Char → Bool
  | [], _ => true
  | _ :: _, [] => false
  | a :: as, b :: bs => a == b && startsWithCL as bs

/-- `strStartsWith p s`: the string `p` is a prefix of the string `s`. -/
def strStartsWith (p s : String) : Bool := startsWithCL p.data s.data

/-- `strEndsWith p s`: the string `p` is a suffix of the string `s`. -/
def strEndsWith (p s : String) : Bool := startsWithCL p.data.reverse s.data.reverse

/-- Drop the last `n` characters of a string. -/
def strDropRight (n : Nat) (s : String) : String :=
  ⟨s.data.take (s.data.length - n)⟩

/-- Strict lexicographic order on character lists. -/
def ltCL : List Char → List Char → Bool
  | [], [] => false
  | [], _ :: _ => true
  | _ :: _, [] => false
  | a :: as, b :: bs => a < b || (a == b && ltCL as bs)

/-- Strict lexicographic order on strings. -/
def strLtB (a b : String) : Bool := ltCL a.data b.data

/-- The list of strings is strictly ascending in lexicographic order. -/
def chainAsc : List String → Bool
  | [] => true
  | [_] => true
  | a :: b :: rest => strLtB a b && chainAsc (b :: rest)

/-! ### The operations appearing in the notebooks' code cells -/

/-- The aggregate reductions used by the notebooks. -/
inductive ReduceKind
  | sum
  | mean
  | std
  deriving DecidableEq, Repr

/-- The argument shapes of the coordinate selections (`.sel(...)` calls and
the `groupby`-with-getitem idiom) appearing in the notebooks. -/
inductive SelArg
  /-- latitude/longitude slices: a geographic bounding box. -/
  | latLonBox (latHi latLo lonLo lonHi : Int)
  /-- scalar latitude/longitude with `method="nearest"`. -/
  | latLonNearest (lat lon : Rat)
  /-- `valid_time=slice(a, b)`: a date range. -/
  | timeSlice (a b : String)
  /-- `valid_time="..."`: a single year/month/date string (a date range). -/
  | timeStr (s : String)
  /-- `valid_time=[...]`: an explicit list of dates. -/
  | timeList (dates : List String)
  /-- `valid_time=(arr["valid_time.month"] == m)`: calendar-field filter. -/
  | monthEq (m : Nat)
  /-- month-equality filter against a Python loop variable
  (`valid_time=(arr["valid_time.month"] == month)` in the final era5 cell). -/
  | monthEqVar
  deriving DecidableEq, Repr

/-- The plotting calls made by the notebooks. -/
inductive PlotCall
  /-- `display.map(arr, ...)`: one array. -/
  | dmap (arg : String)
  /-- `display.maps([arr, ...], ...)`: a list of arrays. -/
  | dmaps (args : List String)
  /-- `display.compare(a, b, ...)`: two series. -/
  | dcompare (a b : String)
  /-- direct matplotlib calls (`.plot()`, `plt.errorbar`, `plt.scatter`). -/
  | matplotlib
  deriving DecidableEq, Repr

/-- One operation of a notebook statement, transcribed from the source. -/
inductive Op
  /-- `xr.open_dataset(url, chunks={}, engine="zarr", ...)`; `viaNetrc`
  records whether the call authenticates through the `~/.netrc`
  credential file (the `https` EDH endpoint with `trust_env`). -/
  | openZarr (url : String) (viaNetrc : Bool)
  /-- attribute access `ds.tp` / `ds.t2m`: pick a variable of the dataset. -/
  | getVar (field : String)
  /-- `.astype(dtype)`: elementwise dtype conversion (lazy). -/
  | astype (dtype : String)
  /-- elementwise multiplication by a scalar (`* 1000`). -/
  | scalarMul (k : Rat)
  /-- elementwise division by a scalar (`/ len(YEARS)`). -/
  | scalarDiv (k : Rat)
  /-- elementwise subtraction of a scalar (`- 273.15`). -/
  | scalarSub (k : Rat)
  /-- elementwise subtraction of two arrays (`a - b`). -/
  | subArrays
  /-- a coordinate selection `.sel(...)`. -/
  | sel (arg : SelArg)
  /-- `.groupby(field)[key]`: group by a calendar field of the time
  coordinate and select one group (`groupby("valid_time.time")[datetime.time()]`). -/
  | groupbySelect (field : String)
  /-- `.compute()`: materialize the selection (download, load in memory). -/
  | compute
  /-- `.sum(dim)` / `.mean(dim=...)` / `.std(dim=...)`: aggregate reduction. -/
  | reduce (r : ReduceKind) (dim : String)
  /-- `.groupby(field).mean(dim=...)` etc.: grouped aggregate reduction. -/
  | groupbyReduce (field : String) (r : ReduceKind) (dim : String)
  /-- `.resample(valid_time=freq).mean(dim=...)`: resampling reduction. -/
  | resampleReduce (freq : String) (r : ReduceKind) (dim : String)
  /-- `arr.attrs["units"] = u`. -/
  | setUnits (u : String)
  /-- a plotting call. -/
  | plot (p : PlotCall)
  deriving DecidableEq, Repr

/-- One statement of a notebook cell: the variable assigned (empty for
statements that assign nothing, such as plotting calls and attribute
writes modelled through their own variable), the variables read, and the
operation performed. -/
structure Stmt where
  target : String
  srcs : List String
  op : Op
  deriving DecidableEq, Repr

/-- One code cell of a notebook: its statements plus counts of the
control-flow and error-handling constructs authored in the cell
(`forLoops`: `for` statements; `conditionals`: `if` statements;
`comprehensions`: list comprehensions; `errorHandlers`: `try`/`except`,
retry, fallback or error-translation constructs). -/
structure Cell where
  stmts : List Stmt
  forLoops : Nat
  conditionals : Nat
  comprehensions : Nat
  errorHandlers : Nat
  deriving DecidableEq, Repr

/-- The flat statement trace of a notebook, cells concatenated in order. -/
def trace (cells : List Cell) : List Stmt := (cells.map Cell.stmts).flatten

/-! ### The floods notebook (`use-cases/floods-precipitation-anomaly.ipynb`)

Transcription of the code cells of the Greece 2023 floods notebook.
Imports (`import xarray as xr`, `import display`, `import datetime`) and
the `%time` / `%%time` cell magics execute no data operation and are not
transcribed.  A chained expression such as `ds.tp.sel(...)` is flattened
into consecutive statements assigning the same target variable. -/

/-- `YEARS`: the literal list of year strings of the floods notebook. -/
def YEARS : List String := [
  "1991", "1992", "1993",
  "1994", "1995", "1996",
  "1997", "1998", "1999",
  "2000", "2001", "2002",
  "2003", "2004", "2005",
  "2006", "2007", "2008",
  "2009", "2010", "2011",
  "2012", "2013", "2014",
  "2015", "2016", "2017",
  "2018", "2019", "2020"]

/-- `DAYS`: the literal list of day strings of the floods notebook. -/
def DAYS : List String := [
  "01", "02", "03",
  "04", "05", "06",
  "07", "08", "09",
  "10", "11", "12",
  "13", "14", "15",
  "16", "17", "18",
  "19", "20", "21",
  "22", "23", "24",
  "25", "26", "27",
  "28", "29", "30"]

/-- `MONTH_REFERENCE_TIME = [f"{y}-09-{d}" for y in YEARS for d in DAYS]`:
the outer comprehension clause runs over `YEARS`, the inner over `DAYS`. -/
def MONTH_REFERENCE_TIME : List String :=
  YEARS.flatMap (fun y => DAYS.map (fun d => y ++ "-09-" ++ d))

/-- The code cells of the floods notebook. -/
def floodsCells : List Cell := [
  -- ds = xr.open_dataset("s3://...zarr", chunks={}, engine="zarr").astype("float32")
  ⟨[⟨"ds", [], .openZarr "s3://ecmwf-era5-land/reanalysis-era5-land-no-antartica-v0.zarr" false⟩,
    ⟨"ds", ["ds"], .astype "float32"⟩], 0, 0, 0, 0⟩,
  -- tp = ds.tp ; tp_greece = tp.sel(latitude=slice(41, 34), longitude=slice(19, 28))
  ⟨[⟨"tp", ["ds"], .getVar "tp"⟩,
    ⟨"tp_greece", ["tp"], .sel (.latLonBox 41 34 19 28)⟩], 0, 0, 0, 0⟩,
  -- tp_greece_storm_daniel = tp_greece.sel(valid_time=["2023-09-06", "2023-09-07"])
  ⟨[⟨"tp_greece_storm_daniel", ["tp_greece"],
    .sel (.timeList ["2023-09-06", "2023-09-07"])⟩], 0, 0, 0, 0⟩,
  -- tp_greece_storm_daniel = tp_greece_storm_daniel.compute()
  ⟨[⟨"tp_greece_storm_daniel", ["tp_greece_storm_daniel"], .compute⟩], 0, 0, 0, 0⟩,
  -- tp_greece_storm_daniel_sum = tp_greece_storm_daniel.sum("valid_time") ;
  -- tp_greece_storm_daniel_sum = tp_greece_storm_daniel_sum * 1000 ;
  -- tp_greece_storm_daniel_sum.attrs["units"] = "mm"
  ⟨[⟨"tp_greece_storm_daniel_sum", ["tp_greece_storm_daniel"], .reduce .sum "valid_time"⟩,
    ⟨"tp_greece_storm_daniel_sum", ["tp_greece_storm_daniel_sum"], .scalarMul 1000⟩,
    ⟨"tp_greece_storm_daniel_sum", ["tp_greece_storm_daniel_sum"], .setUnits "mm"⟩], 0, 0, 0, 0⟩,
  -- display.map(tp_greece_storm_daniel_sum, vmax=400, title="Storm Daniel precipitation")
  ⟨[⟨"", ["tp_greece_storm_daniel_sum"], .plot (.dmap "tp_greece_storm_daniel_sum")⟩], 0, 0, 0, 0⟩,
  -- YEARS = [...] ; DAYS = [...] ;
  -- MONTH_REFERENCE_TIME = [f"{y}-09-{d}" for y in YEARS for d in DAYS] ;
  -- tp_greece_september_1991_2020 = tp_greece.sel(valid_time=MONTH_REFERENCE_TIME)
  -- (one list comprehension authored in this cell)
  ⟨[⟨"tp_greece_september_1991_2020", ["tp_greece"],
    .sel (.timeList MONTH_REFERENCE_TIME)⟩], 0, 0, 1, 0⟩,
  -- tp_greece_september_1991_2020 = tp_greece_september_1991_2020.compute()
  ⟨[⟨"tp_greece_september_1991_2020", ["tp_greece_september_1991_2020"], .compute⟩], 0, 0, 0, 0⟩,
  -- tp_greece_september_1991_2020_average =
  --   (tp_greece_september_1991_2020.sum("valid_time") / len(YEARS)) ;
  -- tp_greece_september_1991_2020_average = tp_greece_september_1991_2020_average * 1000 ;
  -- tp_greece_september_1991_2020_average.attrs["units"] = "mm"
  ⟨[⟨"tp_greece_september_1991_2020_average", ["tp_greece_september_1991_2020"],
      .reduce .sum "valid_time"⟩,
    ⟨"tp_greece_september_1991_2020_average", ["tp_greece_september_1991_2020_average"],
      .scalarDiv (YEARS.length : Rat)⟩,
    ⟨"tp_greece_september_1991_2020_average", ["tp_greece_september_1991_2020_average"],
      .scalarMul 1000⟩,
    ⟨"tp_greece_september_1991_2020_average", ["tp_greece_september_1991_2020_average"],
      .setUnits "mm"⟩], 0, 0, 0, 0⟩,
  -- display.maps([tp_greece_storm_daniel_sum, tp_greece_september_1991_2020_average], ...)
  ⟨[⟨"", ["tp_greece_storm_daniel_sum", "tp_greece_september_1991_2020_average"],
    .plot (.dmaps ["tp_greece_storm_daniel_sum", "tp_greece_september_1991_2020_average"])⟩],
    0, 0, 0, 0⟩,
  -- tp_hinterland_location = ds.tp.sel(latitude=39.25, longitude=21.9, method="nearest")
  ⟨[⟨"tp_hinterland_location", ["ds"], .getVar "tp"⟩,
    ⟨"tp_hinterland_location", ["tp_hinterland_location"],
      .sel (.latLonNearest (39.25 : Rat) (21.9 : Rat))⟩], 0, 0, 0, 0⟩,
  -- tp_hinterland_location = tp_hinterland_location.compute()
  ⟨[⟨"tp_hinterland_location", ["tp_hinterland_location"], .compute⟩], 0, 0, 0, 0⟩,
  -- tp_hinterland_location_daily_total_2023 =
  --   tp_hinterland_location.sel(valid_time="2023").groupby("valid_time.time")[datetime.time()] ;
  -- tp_hinterland_location_daily_total_1991_2022 =
  --   tp_hinterland_location.sel(valid_time=slice("1991", "2020")).groupby(...)[datetime.time()]
  ⟨[⟨"tp_hinterland_location_daily_total_2023", ["tp_hinterland_location"],
      .sel (.timeStr "2023")⟩,
    ⟨"tp_hinterland_location_daily_total_2023", ["tp_hinterland_location_daily_total_2023"],
      .groupbySelect "valid_time.time"⟩,
    ⟨"tp_hinterland_location_daily_total_1991_2022", ["tp_hinterland_location"],
      .sel (.timeSlice "1991" "2020")⟩,
    ⟨"tp_hinterland_location_daily_total_1991_2022",
      ["tp_hinterland_location_daily_total_1991_2022"],
      .groupbySelect "valid_time.time"⟩], 0, 0, 0, 0⟩,
  -- display.compare(tp_hinterland_location_daily_total_2023,
  --   tp_hinterland_location_daily_total_1991_2022, time="valid_time", ylim=[0, 1600])
  ⟨[⟨"", ["tp_hinterland_location_daily_total_2023", "tp_hinterland_location_daily_total_1991_2022"],
    .plot (.dcompare "tp_hinterland_location_daily_total_2023"
      "tp_hinterland_location_daily_total_1991_2022")⟩], 0, 0, 0, 0⟩]

/-- The flat statement trace of the floods notebook. -/
def floodsTrace : List Stmt := trace floodsCells

/-! ### The era5 notebook (`use-cases/tutorial-era5-reanalysis-era5-single-levels.ipynb`)

Transcription of the code cells of the Germany temperature climatology
notebook.  The cell holding only `import display` / `import matplotlib`
and the trailing empty cell are transcribed as cells with no statements. -/

/-- The code cells of the era5 single-levels notebook. -/
def era5Cells : List Cell := [
  -- ds = xr.open_dataset("https://earthdatahub.com/stores/ecmwf-era5-single-levels/
  --   reanalysis-era5-single-levels.zarr", chunks={}, engine="zarr",
  --   storage_options={"client_kwargs": {"trust_env": True}})
  -- (the cell's comment requires ~/.netrc credentials for earthdatahub.com)
  ⟨[⟨"ds", [],
    .openZarr
      "https://earthdatahub.com/stores/ecmwf-era5-single-levels/reanalysis-era5-single-levels.zarr"
      true⟩], 0, 0, 0, 0⟩,
  -- t2m = ds.t2m.astype("float32") - 273.15 ; t2m.attrs["units"] = "C" ;
  -- t2m_germany_area = t2m.sel(latitude=slice(55, 47), longitude=slice(5, 16))
  ⟨[⟨"t2m", ["ds"], .getVar "t2m"⟩,
    ⟨"t2m", ["t2m"], .astype "float32"⟩,
    ⟨"t2m", ["t2m"], .scalarSub (273.15 : Rat)⟩,
    ⟨"t2m", ["t2m"], .setUnits "C"⟩,
    ⟨"t2m_germany_area", ["t2m"], .sel (.latLonBox 55 47 5 16)⟩], 0, 0, 0, 0⟩,
  -- t2m_germany_area_october_2023 = t2m_germany_area.sel(valid_time="2023-10")
  ⟨[⟨"t2m_germany_area_october_2023", ["t2m_germany_area"],
    .sel (.timeStr "2023-10")⟩], 0, 0, 0, 0⟩,
  -- t2m_germany_area_october_2023 = t2m_germany_area_october_2023.compute()
  ⟨[⟨"t2m_germany_area_october_2023", ["t2m_germany_area_october_2023"], .compute⟩], 0, 0, 0, 0⟩,
  -- t2m_germany_area_october_2023_monthly_mean =
  --   t2m_germany_area_october_2023.mean(dim="valid_time")
  ⟨[⟨"t2m_germany_area_october_2023_monthly_mean", ["t2m_germany_area_october_2023"],
    .reduce .mean "valid_time"⟩], 0, 0, 0, 0⟩,
  -- import display ; import matplotlib.pyplot as plt
  ⟨[], 0, 0, 0, 0⟩,
  -- display.map(t2m_germany_area_october_2023_monthly_mean, vmax=None, cmap="YlOrRd", ...)
  ⟨[⟨"", ["t2m_germany_area_october_2023_monthly_mean"],
    .plot (.dmap "t2m_germany_area_october_2023_monthly_mean")⟩], 0, 0, 0, 0⟩,
  -- t2m_germany_area_octobers_1981_2010 =
  --   t2m_germany_area.sel(valid_time=t2m_germany_area["valid_time.month"] == 10)
  --     .sel(valid_time=slice("1981", "2010"))
  ⟨[⟨"t2m_germany_area_octobers_1981_2010", ["t2m_germany_area"], .sel (.monthEq 10)⟩,
    ⟨"t2m_germany_area_octobers_1981_2010", ["t2m_germany_area_octobers_1981_2010"],
      .sel (.timeSlice "1981" "2010")⟩], 0, 0, 0, 0⟩,
  -- t2m_germany_area_octobers_1981_2010 = t2m_germany_area_octobers_1981_2010.compute()
  ⟨[⟨"t2m_germany_area_octobers_1981_2010", ["t2m_germany_area_octobers_1981_2010"],
    .compute⟩], 0, 0, 0, 0⟩,
  -- t2m_germany_area_octobers_1981_2010_mean =
  --   t2m_germany_area_octobers_1981_2010.mean(dim="valid_time")
  ⟨[⟨"t2m_germany_area_octobers_1981_2010_mean", ["t2m_germany_area_octobers_1981_2010"],
    .reduce .mean "valid_time"⟩], 0, 0, 0, 0⟩,
  -- anomaly = t2m_germany_area_october_2023_monthly_mean - t2m_germany_area_octobers_1981_2010_mean
  ⟨[⟨"anomaly",
    ["t2m_germany_area_october_2023_monthly_mean", "t2m_germany_area_octobers_1981_2010_mean"],
    .subArrays⟩], 0, 0, 0, 0⟩,
  -- display.map(anomaly, vmax=None, cmap="YlOrRd", title="...")
  ⟨[⟨"", ["anomaly"], .plot (.dmap "anomaly")⟩], 0, 0, 0, 0⟩,
  -- t2m_Berlin = t2m.sel(latitude=52.5, longitude=13.4, method="nearest")
  ⟨[⟨"t2m_Berlin", ["t2m"], .sel (.latLonNearest (52.5 : Rat) (13.4 : Rat))⟩], 0, 0, 0, 0⟩,
  -- t2m_Berlin = t2m_Berlin.compute()
  ⟨[⟨"t2m_Berlin", ["t2m_Berlin"], .compute⟩], 0, 0, 0, 0⟩,
  -- t2m_Berlin_climatology_mean = t2m_Berlin.sel(valid_time=slice("1981", "2010"))
  --   .groupby("valid_time.month").mean(dim="valid_time") ;
  -- t2m_Berlin_climatology_std = t2m_Berlin.sel(valid_time=slice("1981", "2010"))
  --   .groupby("valid_time.month").std(dim="valid_time")
  ⟨[⟨"t2m_Berlin_climatology_mean", ["t2m_Berlin"], .sel (.timeSlice "1981" "2010")⟩,
    ⟨"t2m_Berlin_climatology_mean", ["t2m_Berlin_climatology_mean"],
      .groupbyReduce "valid_time.month" .mean "valid_time"⟩,
    ⟨"t2m_Berlin_climatology_std", ["t2m_Berlin"], .sel (.timeSlice "1981" "2010")⟩,
    ⟨"t2m_Berlin_climatology_std", ["t2m_Berlin_climatology_std"],
      .groupbyReduce "valid_time.month" .std "valid_time"⟩], 0, 0, 0, 0⟩,
  -- t2m_Berlin_2023_monthly_means = t2m_Berlin.sel(valid_time="2023")
  --   .resample(valid_time="1M").mean(dim="valid_time")
  ⟨[⟨"t2m_Berlin_2023_monthly_means", ["t2m_Berlin"], .sel (.timeStr "2023")⟩,
    ⟨"t2m_Berlin_2023_monthly_means", ["t2m_Berlin_2023_monthly_means"],
      .resampleReduce "1M" .mean "valid_time"⟩], 0, 0, 0, 0⟩,
  -- plt.figure(...) ; t2m_Berlin_climatology_mean.plot(...) ; plt.errorbar(...) ;
  -- for month in range(1, 11):
  --     t2m_point = t2m_Berlin_2023_monthly_means.sel(
  --         valid_time=t2m_Berlin_2023_monthly_means["valid_time.month"] == month)
  --     if month == 1: label = "2023"
  --     plt.scatter(month, t2m_point, ...)
  -- plt.title(...) ; ... ; plt.show()
  -- (one for loop and one conditional authored in this cell)
  ⟨[⟨"", ["t2m_Berlin_climatology_mean", "t2m_Berlin_climatology_std"], .plot .matplotlib⟩,
    ⟨"t2m_point", ["t2m_Berlin_2023_monthly_means"], .sel .monthEqVar⟩,
    ⟨"", ["t2m_point"], .plot .matplotlib⟩], 1, 1, 0, 0⟩,
  -- trailing empty code cell
  ⟨[], 0, 0, 0, 0⟩]

/-- The flat statement trace of the era5 notebook. -/
def era5Trace : List Stmt := trace era5Cells

/-! ### Execution model over a trace

We fold two environments over a trace: the set of variables whose data
is resident in memory (materialized), and the set of variables whose
value has passed through an aggregate reduction. -/

/-- `isOpen o`: the operation opens a remote dataset handle. -/
def isOpen : Op → Bool
  | .openZarr _ _ => true
  | _ => false

/-- `isSel o`: the operation is a coordinate selection (a `.sel(...)`
call or the `groupby`-with-getitem selection idiom). -/
def isSel : Op → Bool
  | .sel _ => true
  | .groupbySelect _ => true
  | _ => false

/-- `isCompute o`: the operation is the explicit materialization `.compute()`. -/
def isCompute : Op → Bool
  | .compute => true
  | _ => false

/-- `isPlotOp o`: the operation is a plotting call. -/
def isPlotOp : Op → Bool
  | .plot _ => true
  | _ => false

/-- `isReduction o`: the operation is an aggregate reduction
(sum/mean/std, grouped statistics, or resampling). -/
def isReduction : Op → Bool
  | .reduce _ _ => true
  | .groupbyReduce _ _ _ => true
  | .resampleReduce _ _ _ => true
  | _ => false

/-- `isTimeReduction o`: the operation is an aggregate reduction over the
time axis (`valid_time`). -/
def isTimeReduction : Op → Bool
  | .reduce _ dim => dim == "valid_time"
  | .groupbyReduce _ _ dim => dim == "valid_time"
  | .resampleReduce _ _ dim => dim == "valid_time"
  | _ => false

/-- `isExternalWrite o`: the operation writes state that would persist
across runs (a file, a database, ...).  No operation of the notebooks
does. -/
def isExternalWrite : Op → Bool
  | .openZarr _ _ => false
  | .getVar _ => false
  | .astype _ => false
  | .scalarMul _ => false
  | .scalarDiv _ => false
  | .scalarSub _ => false
  | .subArrays => false
  | .sel _ => false
  | .groupbySelect _ => false
  | .compute => false
  | .reduce _ _ => false
  | .groupbyReduce _ _ _ => false
  | .resampleReduce _ _ _ => false
  | .setUnits _ => false
  | .plot _ => false

/-- One step of the materialization environment: `.compute()` makes its
target resident; opening yields a lazy handle; any other assignment is
resident exactly when all the variables it reads are resident (an
operation on in-memory data stays in memory, an operation on a lazy view
stays lazy); plotting assigns nothing. -/
def matStep (env : List String) (s : Stmt) : List String :=
  match s.op with
  | .openZarr _ _ => env.filter (fun v => v != s.target)
  | .compute => s.target :: env
  | .plot _ => env
  | _ =>
    if !s.srcs.isEmpty && s.srcs.all env.contains
    then s.target :: env
    else env.filter (fun v => v != s.target)

/-- One step of the reduction environment: an aggregate reduction marks
its target as reduced; elementwise arithmetic, selections, attribute
writes and `.compute()` propagate reducedness from their sources; a
fresh dataset handle or raw variable is not reduced. -/
def redStep (env : List String) (s : Stmt) : List String :=
  let introduces :=
    match s.op with
    | .reduce _ _ => true
    | .groupbyReduce _ _ _ => true
    | .resampleReduce _ _ _ => true
    | _ => false
  let keeps :=
    match s.op with
    | .openZarr _ _ => false
    | .getVar _ => false
    | .plot _ => false
    | _ => true
  if introduces || (keeps && s.srcs.any env.contains)
  then s.target :: env
  else env.filter (fun v => v != s.target)

/-- Check a per-statement predicate over a trace, threading the
materialization and reduction environments. -/
def allStmtsFrom (p : List String → List String → Stmt → Bool) :
    List String → List String → List Stmt → Bool
  | _, _, [] => true
  | mat, red, s :: rest =>
    p mat red s && allStmtsFrom p (matStep mat s) (redStep red s) rest

/-- Check a per-statement predicate over a whole trace, starting from
the empty environments of a fresh notebook run. -/
def checkTrace (p : List String → List String → Stmt → Bool) (tr : List Stmt) : Bool :=
  allStmtsFrom p [] [] tr

/-- The materialization environment holding before statement `i`. -/
def matEnvBefore (tr : List Stmt) (i : Nat) : List String :=
  (tr.take i).foldl matStep []

/-- `materializedBefore tr i v`: variable `v` is resident in memory just
before statement `i` of the trace runs. -/
def materializedBefore (tr : List Stmt) (i : Nat) (v : String) : Bool :=
  (matEnvBefore tr i).contains v

/-! ### Bulk-transfer model

Modelled from the spec: the lazy-evaluation semantics of the delegated
xarray/Dask/zarr stack is not part of this repository's source.  The
spec (and the notebooks' own prose) state that opening a store and
selecting coordinates build a task graph without transferring bulk data,
and that data is downloaded and loaded in memory when a forcing method
(`.compute()`, `.plot()`) runs on a not-yet-resident view. -/

/-- Modelled from the spec: the operations that force evaluation of a
lazy view (`.compute()` and plotting); opening a handle retrieves only
metadata, and selections are non-materializing. -/
def forcesEval : Op → Bool
  | .compute => true
  | .plot _ => true
  | _ => false

/-- Modelled from the spec: a statement transfers bulk data exactly when
it forces evaluation of data that is not yet resident in memory. -/
def bulkTransfer (mat : List String) (s : Stmt) : Bool :=
  forcesEval s.op && s.srcs.any (fun v => !mat.contains v)

/-! ### The catalog file `index.json` -/

/-- The keys the spec requires of every catalog entry. -/
def requiredKeys : List String :=
  ["id", "title", "description", "source", "export", "thumbnail_url", "collection", "dataset"]

/-- `hasKey e k`: the entry `e` carries the key `k`. -/
def hasKey (e : List (String × String)) (k : String) : Bool :=
  e.any (fun p => p.1 == k)

/-- `valueOf e k`: the value the entry `e` gives the key `k` (empty
string when absent). -/
def valueOf (e : List (String × String)) (k : String) : String :=
  ((e.find? (fun p => p.1 == k)).map Prod.snd).getD ""

/-- Replace the trailing `".ipynb"` of a path by `".html"`. -/
def ipynbToHtml (s : String) : String := strDropRight 6 s ++ ".html"

/-- The entries of `index.json`, each transcribed as its list of
key/value pairs in source order. -/
def indexEntries : List (List (String × String)) := [
  [("id", "floods-precipitation-anomaly"),
   ("title", "How to work with ERA5 land: Greece 2023 floods due to storm Daniel"),
   ("description", "This notebook will provide you guidance on how to access and use the reanalysis-era5-land-no-antartica-v0.zarr datset on Earth Data Hub. The first goal is to compute the total precipitation observed during the Storm Daniel event, from 6 to 7 September 2023, in Greece, and compare it with the average 1991-2020 precipitation in the same area. The second goal is to compare the 2023 cumulative precipitation on a specific location (Greece interland) with the cumulative precipitation of past years (1991-2022) for the same location."),
   ("source", "./use-cases/floods-precipitation-anomaly.ipynb"),
   ("export", "./use-cases/floods-precipitation-anomaly.html"),
   ("thumbnail_url", "./use-cases/floods-precipitation-anomaly.jpg"),
   ("collection", "era5"),
   ("dataset", "reanalysis-era5-land")],
  [("id", "tutorial-era5-reanalysis-era5-single-levels"),
   ("title", "How to work with ERA5 single levels: climatological analysis of temperature in Germany"),
   ("description", "This notebook will provide you guidance on how to access and use the reanalysis-era5-single-levels.zarr datset on Earth Data Hub. The first goal is to compute the 2 metre temperature anomaly for the month of October 2023, in the Germany area, against the 1981-2010 reference period. The second goal is to compute the 2 metre temperature climatology (monthly means and standard deviations) in Berlin for the same reference period and compare it with the monthly averages of 2023."),
   ("source", "./use-cases/tutorial-era5-reanalysis-era5-single-levels.ipynb"),
   ("export", "./use-cases/tutorial-era5-reanalysis-era5-single-levels.html"),
   ("thumbnail_url", "./use-cases/tutorial-era5-reanalysis-era5-single-levels.jpg"),
   ("collection", "era5"),
   ("dataset", "reanalysis-era5-single-levels")],
  [("id", "tutorial-cmems-reanalysis-cmems_mod_glo_phy_my_0.083_P1D-m"),
   ("title", "El Nino events exploration"),
   ("description", "An exploration of El Nino events using CMEMS data"),
   ("source", "./use-cases/tutorial-cmems-reanalysis-cmems_mod_glo_phy_my_0.083_P1D-m.ipynb"),
   ("export", "./use-cases/tutorial-cmems-reanalysis-cmems_mod_glo_phy_my_0.083_P1D-m.html"),
   ("thumbnail_url", "./use-cases/tutorial-cmems-reanalysis-cmems_mod_glo_phy_my_0.083_P1D-m.jpg"),
   ("collection", "cmems-reanalysis"),
   ("dataset", "cmems_mod_glo_phy_my_0.083_P1D-m")],
  [("id", "tutorial-ecmwf-forecasts-opendata-oper"),
   ("title", "Surface temperature forecasts"),
   ("description", "An exploration of surface temperature high-resolution forecasts"),
   ("source", "./use-cases/tutorial-ecmwf-forecasts-opendata-oper.ipynb"),
   ("export", "./use-cases/tutorial-ecmwf-forecasts-opendata-oper.html"),
   ("thumbnail_url", "./use-cases/tutorial-ecmwf-forecasts-opendata-oper.jpg"),
   ("collection", "ecmwf-forecasts"),
   ("dataset", "opendata-oper")],
  [("id", "tutorial-era5-ecv-for-climate-change"),
   ("title", "Surface temperature data exploration"),
   ("description", "An exploration of surface temperature variability using ERA5-derived data"),
   ("source", "./use-cases/tutorial-era5-ecv-for-climate-change.ipynb"),
   ("export", "./use-cases/tutorial-era5-ecv-for-climate-change.html"),
   ("thumbnail_url", "./use-cases/tutorial-era5-ecv-for-climate-change.jpg"),
   ("collection", "era5"),
   ("dataset", "ecv-for-climate-change")],
  [("id", "eurostats_final-energy-consumption"),
   ("title", "EUROSTAT final energy consumption"),
   ("description", "EUROSTAT Final Consumption of Energy data over Europe."),
   ("source", "./use-cases/eurostats_final-energy-consumption.ipynb"),
   ("export", "./use-cases/eurostats_final-energy-consumption.html"),
   ("thumbnail_url", "https://apps.mundialis.de/bopen_hedp/thumbnails/sdg_07_11-20000101-20210101.png"),
   ("collection", "eurostat"),
   ("dataset", "geoprocessed-eurostat-final-energy-consumption_sdg_07_11")],
  [("id", "eurostats_CDD-and-HDD-data"),
   ("title", "EUROSTAT CDD & HDD"),
   ("description", "Eurostat CDD & HDD data over Europe."),
   ("source", "./use-cases/eurostats_CDD-and-HDD-data.ipynb"),
   ("export", "./use-cases/eurostats_CDD-and-HDD-data.html"),
   ("thumbnail_url", "https://apps.mundialis.de/bopen_hedp/thumbnails/nrg_chddr2_a-19790101-20220101.png"),
   ("collection", "eurostat"),
   ("dataset", "geoprocessed-eurostat-final-energy-consumption_sdg_07_11")],
  [("id", "eurostats_population"),
   ("title", "EUROSTAT population"),
   ("description", "Eurostat population data over Europe."),
   ("source", "./use-cases/eurostats_population.ipynb"),
   ("export", "./use-cases/eurostats_population.html"),
   ("thumbnail_url", "https://apps.mundialis.de/bopen_hedp/thumbnails/demo_r_pjanaggr3-19900101-20220101.png"),
   ("collection", "eurostat"),
   ("dataset", "geoprocessed-eurostat-population-demo_r_pjanaggr3")],
  [("id", "eurostats_population-density"),
   ("title", "EUROSTAT population density"),
   ("description", "Eurostat population density data over Europe."),
   ("source", "./use-cases/eurostats_population-density.ipynb"),
   ("export", "./use-cases/eurostats_population-density.html"),
   ("thumbnail_url", "https://apps.mundialis.de/bopen_hedp/thumbnails/demo_r_d3dens-19900101-20220101.png"),
   ("collection", "eurostat"),
   ("dataset", "geoprocessed-eurostat-population-density-demo_r_d3dens")],
  [("id", "eurostats_gross-domestic-product"),
   ("title", "EUROSTAT Gross domestic product"),
   ("description", "Europe Gross domestic product (GDP)."),
   ("source", "./use-cases/eurostats_gross-domestic-product.ipynb"),
   ("export", "./use-cases/eurostats_gross-domestic-product.html"),
   ("thumbnail_url", "https://apps.mundialis.de/bopen_hedp/thumbnails/nama_10r_3gdp-20000101-20210101.png"),
   ("collection", "eurostat"),
   ("dataset", "geoprocessed-eurostat-regional-economic-accounts_nama_10r_3gdp")],
  [("id", "eurostats_soil-erosion"),
   ("title", "EUROSTAT soil erosion"),
   ("description", "Europe EUROSTAT soil erosion."),
   ("source", "./use-cases/eurostats_soil-erosion.ipynb"),
   ("export", "./use-cases/eurostats_soil-erosion.html"),
   ("thumbnail_url", "https://apps.mundialis.de/bopen_hedp/thumbnails/aei_pr_soiler-20000101-20160101.png"),
   ("collection", "eurostat"),
   ("dataset", "geoprocessed-eurostat-soil-erosion-aei_pr_soiler")]]

/-! ### Claim-level predicates -/

/-- Every coordinate selection is applied to a not-yet-materialized
view (the order "selections, then materialization" of the spec's
pipeline). -/
def selOnLazyOnly (mat : List String) (_red : List String) (s : Stmt) : Bool :=
  !(isSel s.op) || !(s.srcs.any mat.contains)

/-- Every aggregate reduction over the time axis reads only variables
already resident in memory. -/
def timeReduceOnResident (mat : List String) (_red : List String) (s : Stmt) : Bool :=
  !(isTimeReduction s.op) || s.srcs.all mat.contains

/-- Every plotting call reads only variables already resident in memory. -/
def plotOnResident (mat : List String) (_red : List String) (s : Stmt) : Bool :=
  !(isPlotOp s.op) || s.srcs.all mat.contains

/-- Bulk data transfer happens only at an explicit `.compute()`. -/
def transferOnlyAtCompute (mat : List String) (_red : List String) (s : Stmt) : Bool :=
  !(bulkTransfer mat s) || isCompute s.op

/-- Every explicit `.compute()` of the trace actually transfers bulk
data (its source is not yet resident). -/
def computeTransfers (mat : List String) (_red : List String) (s : Stmt) : Bool :=
  !(isCompute s.op) || bulkTransfer mat s

/-- The first statement of the trace opens the remote dataset handle. -/
def headIsOpen : List Stmt → Bool
  | [] => false
  | s :: _ => isOpen s.op

/-- The number of dataset-opening statements in a trace. -/
def openCount (tr : List Stmt) : Nat := (tr.filter (fun s => isOpen s.op)).length

/-- A cell authors no branching control structure. -/
def noControlFlow (c : Cell) : Bool :=
  c.forLoops == 0 && c.conditionals == 0 && c.comprehensions == 0

/-- The calls into the external `display` helper module occurring in a
trace, in order. -/
def displayCalls (tr : List Stmt) : List PlotCall :=
  tr.filterMap (fun s =>
    match s.op with
    | .plot (.dmap a) => some (.dmap a)
    | .plot (.dmaps l) => some (.dmaps l)
    | .plot (.dcompare a b) => some (.dcompare a b)
    | _ => none)

/-- Shape of each `display` invocation: `display.map` gets a single
array that has passed through a reduction and is in memory,
`display.maps` a non-empty list of in-memory arrays, `display.compare`
two in-memory series. -/
def displayCallOK (mat : List String) (red : List String) (s : Stmt) : Bool :=
  match s.op with
  | .plot (.dmap a) => red.contains a && mat.contains a
  | .plot (.dmaps args) => !args.isEmpty && args.all mat.contains
  | .plot (.dcompare a b) => mat.contains a && mat.contains b
  | _ => true

/-- The selection argument falls under one of the four forms the spec
states: geographic bounding box, nearest-point lookup, date range
(slice, year/month/date string, or explicit date list), or
calendar-field filter. -/
def statedSelectionForm : SelArg → Bool
  | .latLonBox _ _ _ _ => true
  | .latLonNearest _ _ => true
  | .timeSlice _ _ => true
  | .timeStr _ => true
  | .timeList _ => true
  | .monthEq _ => true
  | .monthEqVar => true

/-- The arguments of the `.sel(...)` selections of a trace, in order. -/
def selectionArgs (tr : List Stmt) : List SelArg :=
  tr.filterMap (fun s =>
    match s.op with
    | .sel a => some a
    | _ => none)

/-- The fields of the `groupby`-with-getitem selections of a trace. -/
def groupbySelectFields (tr : List Stmt) : List String :=
  tr.filterMap (fun s =>
    match s.op with
    | .groupbySelect f => some f
    | _ => none)

/-- The dataset-opening calls of a trace: URL and whether the call
authenticates through the `~/.netrc` credential file. -/
def openCalls (tr : List Stmt) : List (String × Bool) :=
  tr.filterMap (fun s =>
    match s.op with
    | .openZarr u b => some (u, b)
    | _ => none)

/-- The two transports the spec states: an S3-style object-storage
endpoint, or an HTTPS endpoint authenticated through a credential file. -/
def statedTransport (p : String × Bool) : Bool :=
  strStartsWith "s3://" p.1 || (strStartsWith "https://" p.1 && p.2)

/-- The per-grid-cell September average of the floods notebook,
transcribed from `(tp_greece_september_1991_2020.sum("valid_time") /
len(YEARS)) * 1000`: `xs` is the series of the 900 selected time-step
values at one grid cell. -/
def tpSeptemberAverageCell (xs : List Rat) : Rat :=
  xs.sum / (YEARS.length : Rat) * 1000

/-- Two-digit zero-padded day string. -/
def twoDigit (n : Nat) : String :=
  if n < 10 then "0" ++ toString n else toString n

/-- The date list the claim describes: "YYYY-09-DD" for the 30 years
1991-2020 and the 30 days 01-30, generated in year-major ascending
order. -/
def claimedSeptemberDates : List String :=
  (List.range 30).flatMap (fun i =>
    (List.range 30).map (fun j => toString (1991 + i) ++ "-09-" ++ twoDigit (j + 1)))

/-! ### The claims -/

/-- C1, counterexample: the claim's fixed order "coordinate selections
are applied, then the selection is materialized" fails on the floods
notebook: the per-statement check that every coordinate selection is
applied to a not-yet-materialized view is violated, concretely at
statement 20 (`tp_hinterland_location.sel(valid_time="2023")`), a
coordinate selection whose source `tp_hinterland_location` is already
materialized by the `.compute()` of the preceding cell. -/
theorem C1_counterexample :
    checkTrace selOnLazyOnly floodsTrace = false ∧
    isSel (floodsTrace.getD 20 ⟨"", [], .compute⟩).op = true ∧
    (floodsTrace.getD 20 ⟨"", [], .compute⟩).srcs = ["tp_hinterland_location"] ∧
    materializedBefore floodsTrace 20 "tp_hinterland_location" = true := by
  decide

/-- C1, amended: in every notebook the remote dataset handle is opened
first and exactly once; every aggregate reduction over the time axis is
applied only after the materialization step that precedes it (it reads
only in-memory data); and every plotting call receives only in-memory
results — however, further coordinate selections may also be applied
after materialization, to the in-memory array. -/
theorem C1_pipeline_order_amended :
    headIsOpen floodsTrace = true ∧ headIsOpen era5Trace = true ∧
    openCount floodsTrace = 1 ∧ openCount era5Trace = 1 ∧
    checkTrace timeReduceOnResident floodsTrace = true ∧
    checkTrace timeReduceOnResident era5Trace = true ∧
    checkTrace plotOnResident floodsTrace = true ∧
    checkTrace plotOnResident era5Trace = true := by
  decide

/-- C2, counterexample: the claim "no conditional and no loop in any
code cell" fails on the era5 notebook: its final visualization cell
(cell 16) authors one `for` loop over the months and one conditional
setting the legend label. -/
theorem C2_counterexample :
    era5Cells.all noControlFlow = false ∧
    (era5Cells.getD 16 ⟨[], 0, 0, 0, 0⟩).forLoops = 1 ∧
    (era5Cells.getD 16 ⟨[], 0, 0, 0, 0⟩).conditionals = 1 := by
  decide

/-- C2, amended: every code cell of both notebooks authors no branching
control structure, except that the date-list cell of the floods notebook
authors one list comprehension (and no loop statement or conditional)
and the final visualization cell of the era5 notebook authors one `for`
loop and one conditional; and no operation of either notebook writes
state that persists across runs. -/
theorem C2_straight_line_amended :
    (floodsCells.eraseIdx 6).all noControlFlow = true ∧
    (era5Cells.eraseIdx 16).all noControlFlow = true ∧
    (floodsCells.getD 6 ⟨[], 0, 0, 0, 0⟩).comprehensions = 1 ∧
    (floodsCells.getD 6 ⟨[], 0, 0, 0, 0⟩).forLoops = 0 ∧
    (floodsCells.getD 6 ⟨[], 0, 0, 0, 0⟩).conditionals = 0 ∧
    (era5Cells.getD 16 ⟨[], 0, 0, 0, 0⟩).forLoops = 1 ∧
    (era5Cells.getD 16 ⟨[], 0, 0, 0, 0⟩).conditionals = 1 ∧
    (era5Cells.getD 16 ⟨[], 0, 0, 0, 0⟩).comprehensions = 0 ∧
    (floodsTrace ++ era5Trace).all (fun s => !(isExternalWrite s.op)) = true := by
  decide

/-- C3: under the lazy-evaluation model of the delegated libraries
(opening retrieves only metadata, selections are non-materializing,
forcing methods transfer the data they need), every statement of both
notebooks that transfers bulk data is an explicit `.compute()`, every
`.compute()` of both notebooks does transfer bulk data, and neither a
dataset opening, nor a coordinate selection, nor a `groupby` selection
ever forces evaluation. -/
theorem C3_lazy_until_compute :
    checkTrace transferOnlyAtCompute floodsTrace = true ∧
    checkTrace transferOnlyAtCompute era5Trace = true ∧
    checkTrace computeTransfers floodsTrace = true ∧
    checkTrace computeTransfers era5Trace = true ∧
    (∀ u b, forcesEval (.openZarr u b) = false) ∧
    (∀ a, forcesEval (.sel a) = false) ∧
    (∀ f, forcesEval (.groupbySelect f) = false) := by
  exact ⟨by decide, by decide, by decide, by decide,
    fun u b => rfl, fun a => rfl, fun f => rfl⟩

/-- C4: no code cell of either notebook authors a `try`/`except`,
retry, fallback or error-translation construct. -/
theorem C4_no_error_handling :
    (floodsCells ++ era5Cells).all (fun c => c.errorHandlers == 0) = true := by
  decide

/-- C5: the invocations of the external `display` module across both
notebooks are exactly the listed `map`, `maps` and `compare` calls, and
each matches the stated shape: `display.map` receives a single reduced
in-memory array, `display.maps` a (non-empty) list of in-memory arrays,
`display.compare` two in-memory series. -/
theorem C5_display_calls :
    displayCalls floodsTrace =
      [.dmap "tp_greece_storm_daniel_sum",
       .dmaps ["tp_greece_storm_daniel_sum", "tp_greece_september_1991_2020_average"],
       .dcompare "tp_hinterland_location_daily_total_2023"
         "tp_hinterland_location_daily_total_1991_2022"] ∧
    displayCalls era5Trace =
      [.dmap "t2m_germany_area_october_2023_monthly_mean", .dmap "anomaly"] ∧
    checkTrace displayCallOK floodsTrace = true ∧
    checkTrace displayCallOK era5Trace = true := by
  exact ⟨by decide, by decide, by decide, by decide⟩

/-- C6: every coordinate selection of both notebooks has one of the four
stated forms (geographic bounding box, nearest-point lookup, date range
or explicit date list, calendar-field filter), every `groupby` selection
groups on a calendar field of the time coordinate, and selections never
force evaluation (they are non-materializing). -/
theorem C6_selection_forms :
    (selectionArgs floodsTrace ++ selectionArgs era5Trace).all statedSelectionForm = true ∧
    (groupbySelectFields floodsTrace ++ groupbySelectFields era5Trace).all
      (fun f => f == "valid_time.time") = true ∧
    (∀ a, forcesEval (Op.sel a) = false) ∧
    (∀ f, forcesEval (Op.groupbySelect f) = false) := by
  exact ⟨by decide, by decide, fun a => rfl, fun f => rfl⟩

set_option maxRecDepth 100000 in
/-- C7: each of the eleven entries of `index.json` carries all of the
stated fields (identifier, title, description, source path, exported-
HTML path, thumbnail URL, collection tag and dataset tag), and none of
these fields is empty. -/
theorem C7_catalog_fields :
    indexEntries.length = 11 ∧
    indexEntries.all (fun e =>
      requiredKeys.all (fun k => hasKey e k && !(valueOf e k).isEmpty)) = true := by
  decide

/-- C8: the dataset-opening calls of the two notebooks are exactly the
S3 object-storage call of the floods notebook and the HTTPS call of the
era5 notebook (the latter authenticated through the `~/.netrc`
credential file), and each uses one of the two stated transports. -/
theorem C8_transports :
    openCalls floodsTrace =
      [("s3://ecmwf-era5-land/reanalysis-era5-land-no-antartica-v0.zarr", false)] ∧
    openCalls era5Trace =
      [("https://earthdatahub.com/stores/ecmwf-era5-single-levels/reanalysis-era5-single-levels.zarr",
        true)] ∧
    (openCalls floodsTrace ++ openCalls era5Trace).all statedTransport = true := by
  exact ⟨by decide, by decide, by decide⟩

set_option maxRecDepth 200000 in
/-- C9: in the floods notebook, `MONTH_REFERENCE_TIME` is exactly the
900 dates "YYYY-09-DD" for the 30 years 1991-2020 and the 30 days
01-30 in year-major ascending (lexicographic) order; the 1991-2020
September average is the per-grid-cell sum over these 900 selected time
steps divided by 30 — the number of years, not the number of time
steps — then multiplied by 1000; and the notebook selects exactly this
date list, reduces it with `sum` over `valid_time`, divides by
`len(YEARS)`, multiplies by 1000 and sets the units attribute to
`"mm"`. -/
theorem C9_september_average :
    MONTH_REFERENCE_TIME = claimedSeptemberDates ∧
    chainAsc MONTH_REFERENCE_TIME = true ∧
    MONTH_REFERENCE_TIME.length = 900 ∧
    YEARS.length = 30 ∧
    (∀ xs : List Rat, tpSeptemberAverageCell xs = xs.sum / 30 * 1000) ∧
    (⟨"tp_greece_september_1991_2020", ["tp_greece"],
      .sel (.timeList MONTH_REFERENCE_TIME)⟩ : Stmt) ∈ floodsTrace ∧
    (⟨"tp_greece_september_1991_2020_average", ["tp_greece_september_1991_2020"],
      .reduce .sum "valid_time"⟩ : Stmt) ∈ floodsTrace ∧
    (⟨"tp_greece_september_1991_2020_average", ["tp_greece_september_1991_2020_average"],
      .scalarDiv (YEARS.length : Rat)⟩ : Stmt) ∈ floodsTrace ∧
    (⟨"tp_greece_september_1991_2020_average", ["tp_greece_september_1991_2020_average"],
      .scalarMul 1000⟩ : Stmt) ∈ floodsTrace ∧
    (⟨"tp_greece_september_1991_2020_average", ["tp_greece_september_1991_2020_average"],
      .setUnits "mm"⟩ : Stmt) ∈ floodsTrace := by
  refine ⟨by decide, by decide, by decide, by decide, ?_,
    by decide, by decide, by decide, by decide, by decide⟩
  intro xs
  show xs.sum / ((30 : Nat) : Rat) * 1000 = xs.sum / 30 * 1000
  norm_num

/-- C10: `index.json` has exactly eleven entries, and in each one the
source path starts with "./use-cases/" and ends in ".ipynb", and the
export path is the source path with the ".ipynb" suffix replaced by
".html". -/
theorem C10_export_paths :
    indexEntries.length = 11 ∧
    indexEntries.all (fun e =>
      strStartsWith "./use-cases/" (valueOf e "source") &&
      strEndsWith ".ipynb" (valueOf e "source") &&
      valueOf e "export" == ipynbToHtml (valueOf e "source")) = true := by
  decide

end EDH
